import Mathlib

/-!
# pick_and_place_perception.cpp : perception client, candidate selection, motion sequence

A shallow embedding of `moveit2_scripts/src/pick_and_place_perception.cpp`.

* C++ `double` values are embedded as rationals (`ℚ`); every decimal literal of the
  source is the rational it denotes, and `+`, `-`, `<` are exact. Rounding, NaN and
  infinities are outside the embedding.
* `std::vector` is a `List`; `v[i]` on an index that is out of range has no defined
  result in C++ and is embedded as `none`.
* The two uninitialised locals `x_pose`, `y_pose` of `main` hold an indeterminate
  value; that value is a parameter (`x0`, `y0`) of the embedding.
* The MoveIt backend is external. Every answer it gives is taken from an arbitrary
  function `Nat → Response` (answer number `n` is given to the `n`-th call), and the
  calls `main` makes are recorded, in order, in a trace.
-/

namespace PickAndPlace

/-! ## Message types (the fields `main` reads) -/

/-- Message `geometry_msgs/Point`. -/
structure Point where
  x : ℚ
  y : ℚ
  z : ℚ
deriving DecidableEq, Repr

/-- Message `geometry_msgs/Quaternion`. -/
structure Quaternion where
  x : ℚ
  y : ℚ
  z : ℚ
  w : ℚ
deriving DecidableEq, Repr

/-- Message `geometry_msgs/Pose`. -/
structure Pose where
  position : Point
  orientation : Quaternion
deriving DecidableEq, Repr

/-- Message `shape_msgs/SolidPrimitive`: `type` is a `uint8` (BOX = 1, SPHERE = 2,
CYLINDER = 3, CONE = 4), `dimensions` a vector of doubles. -/
structure SolidPrimitive where
  type : Nat
  dimensions : List ℚ
deriving DecidableEq, Repr

/-- Message `grasping_msgs/Object`, restricted to the two vectors read by `main`. -/
structure Object where
  primitives : List SolidPrimitive
  primitive_poses : List Pose
deriving DecidableEq, Repr

/-- Message `grasping_msgs/GraspableObject`, restricted to its `object` field. -/
structure GraspableObject where
  object : Object
deriving DecidableEq, Repr

/-! ## class GetPoseClient (lines 16-114) -/

/-- Enumeration `rclcpp_action::ResultCode`. -/
inductive ResultCode where
  | UNKNOWN
  | SUCCEEDED
  | CANCELED
  | ABORTED
deriving DecidableEq, Repr

/-- Goal of the action `FindGraspableObjects`. -/
structure Goal where
  plan_grasps : Bool
deriving DecidableEq, Repr

/-- The value `GoalHandleFind::WrappedResult` handed to `result_callback`: the result
code and the object vector `result.result->objects`. -/
structure WrappedResult where
  code : ResultCode
  objects : List GraspableObject
deriving DecidableEq, Repr

/-- The data members of `GetPoseClient` (lines 75-78). `timer_running` is the state of
`timer_` (false once cancelled); `sent_goals` lists the goals handed to
`client_ptr_->async_send_goal`, oldest first. -/
structure GetPoseClient where
  goal_done_ : Bool
  result_ : List GraspableObject
  timer_running : Bool
  sent_goals : List Goal
deriving DecidableEq, Repr

/-- The constructor (lines 21-32): `goal_done_(false)`, `result_` default-constructed
(empty), the action client created and the 500 ms wall timer started. -/
def GetPoseClient.create : GetPoseClient :=
  { goal_done_ := false, result_ := [], timer_running := true, sent_goals := [] }

/-- Line 34. -/
def GetPoseClient.is_goal_done (c : GetPoseClient) : Bool := c.goal_done_

/-- Lines 36-38. -/
def GetPoseClient.get_result (c : GetPoseClient) : List GraspableObject := c.result_

/-- Lines 40-72. `server_available` is what
`client_ptr_->wait_for_action_server(std::chrono::seconds(10))` returns. The
constructor always creates `client_ptr_`, so the null test of line 47 only guards a
log line and is left out. -/
def GetPoseClient.send_goal (c : GetPoseClient) (server_available : Bool) : GetPoseClient :=
  let c := { c with timer_running := false }
  let c := { c with goal_done_ := false }
  if !server_available then
    { c with goal_done_ := true }
  else
    let goal_msg : Goal := { plan_grasps := false }
    { c with sent_goals := c.sent_goals ++ [goal_msg] }

/-- Lines 80-87: logs only. -/
def GetPoseClient.goal_response_callback (c : GetPoseClient) (_accepted : Bool) : GetPoseClient := c

/-- Lines 89-92: logs only. -/
def GetPoseClient.feedback_callback (c : GetPoseClient) : GetPoseClient := c

/-- Lines 94-113. -/
def GetPoseClient.result_callback (c : GetPoseClient) (result : WrappedResult) : GetPoseClient :=
  let c := { c with goal_done_ := true }
  match result.code with
  | ResultCode.SUCCEEDED => { c with result_ := result.objects }
  | ResultCode.ABORTED => c
  | ResultCode.CANCELED => c
  | ResultCode.UNKNOWN => c

/-! ## main: candidate selection (lines 119-143) -/

/-- The condition of the `if` at lines 130-133, with the left-to-right short-circuit
evaluation of `&&`; `none` when a `[]` lookup that is evaluated is out of range. -/
def selection_condition (o : GraspableObject) : Option Bool :=
  match o.object.primitives[0]? with
  | none => none
  | some p =>
    if p.type = 1 then
      match (p.dimensions[0]? : Option ℚ) with
      | none => none
      | some d0 =>
        if d0 < (0.05 : ℚ) then
          match (p.dimensions[1]? : Option ℚ) with
          | none => none
          | some d1 =>
            if d1 < (0.05 : ℚ) then
              match (p.dimensions[2]? : Option ℚ) with
              | none => none
              | some d2 => some (decide (d2 < (0.1 : ℚ)))
            else some false
        else some false
    else some false

/-- The locals `x_pose`, `y_pose` of `main`, and the objects the loop has visited so
far (oldest first). -/
structure Selection where
  x_pose : ℚ
  y_pose : ℚ
  visited : List GraspableObject
deriving DecidableEq, Repr

/-- One iteration of the range-for loop (lines 129-143) on `object`. -/
def selection_body (s : Selection) (object : GraspableObject) : Option Selection :=
  let s := { s with visited := s.visited ++ [object] }
  match selection_condition object with
  | none => none
  | some true =>
    match object.object.primitive_poses[0]? with
    | none => none
    | some pose => some { s with x_pose := pose.position.x, y_pose := pose.position.y }
  | some false => some s

/-- The range-for loop of lines 129-143 over `result`, started in state `s`. -/
def selection_loop : List GraspableObject → Selection → Option Selection
  | [], s => some s
  | object :: rest, s =>
    match selection_body s object with
    | none => none
    | some s1 => selection_loop rest s1

/-- Lines 119-143 of `main`: `x_pose` and `y_pose` are declared without an initialiser
(their indeterminate contents are `x0`, `y0`), then the loop runs over `result`. -/
def candidate_selection (x0 y0 : ℚ) (result : List GraspableObject) : Option Selection :=
  selection_loop result { x_pose := x0, y_pose := y0, visited := [] }

/-! ## main: motion sequence (lines 186-292) -/

/-- The two planning groups: `move_group_arm` ("ur_manipulator") and
`move_group_gripper` ("gripper"). -/
inductive Group where
  | arm
  | gripper
deriving DecidableEq, Repr

/-- Message `moveit_msgs/RobotTrajectory`, as the list of its joint-space points. -/
structure RobotTrajectory where
  points : List (List ℚ)
deriving DecidableEq, Repr

/-- What the backend gives back on one call. `plan` and `execute` return `code` (a
`MoveItErrorCode`, SUCCESS = 1); `plan` and `computeCartesianPath` write `trajectory`
into their output argument; `computeCartesianPath` returns `fraction`;
`getCurrentState` returns a state whose group joint positions are `joints`. Each call
reads only the fields that belong to it. -/
structure Response where
  code : Int
  trajectory : RobotTrajectory
  fraction : ℚ
  joints : List ℚ
deriving DecidableEq, Repr

/-- One recorded step of `main`: an `RCLCPP_INFO(LOGGER, ...)` line or a call on a
`MoveGroupInterface`, with the arguments passed. -/
inductive Call where
  | info (msg : String)
  | setPoseTarget (g : Group) (pose : Pose)
  | setNamedTarget (g : Group) (name : String)
  | setJointValueTarget (g : Group) (positions : List ℚ)
  | plan (g : Group)
  | computeCartesianPath (g : Group) (waypoints : List Pose) (eef_step : ℚ) (jump_threshold : ℚ)
  | getCurrentState (g : Group) (wait : ℚ)
  | execute (g : Group) (trajectory : RobotTrajectory)
deriving DecidableEq, Repr

/-- The environment of the motion sequence: the backend answers, how many of them
have been consumed, and the trace of steps recorded so far (oldest first). -/
structure World where
  backend : Nat → Response
  answered : Nat
  trace : List Call

/-- Record an `RCLCPP_INFO(LOGGER, msg)` line. -/
def World.log (w : World) (msg : String) : World :=
  { w with trace := w.trace ++ [Call.info msg] }

/-- Make the backend call `c`: record it and take the next backend answer. -/
def World.call (w : World) (c : Call) : Response × World :=
  (w.backend w.answered, { w with answered := w.answered + 1, trace := w.trace ++ [c] })

/-- Lines 188-195: the pregrasp pose `target_pose1`. -/
def pregrasp_pose (x_pose y_pose : ℚ) : Pose :=
  { orientation := { x := 0.707, y := -0.707, z := 0.00, w := 0.00 },
    position := { x := x_pose, y := y_pose, z := 0.26 } }

/-- Line 121. -/
def error_x : ℚ := 0.012079

/-- Line 122. -/
def error_y : ℚ := -0.009217

/-- Lines 219-226: from `target_pose1`, the vector `approach_waypoints` and the value
of `target_pose1` afterwards. -/
def approach_waypoints (target_pose1 : Pose) : List Pose × Pose :=
  let waypoints : List Pose := []
  let target_pose1 := { target_pose1 with position := { target_pose1.position with x := target_pose1.position.x + error_x } }
  let target_pose1 := { target_pose1 with position := { target_pose1.position with y := target_pose1.position.y + error_y } }
  let target_pose1 := { target_pose1 with position := { target_pose1.position with z := target_pose1.position.z - 0.04 } }
  let waypoints := waypoints ++ [target_pose1]
  let target_pose1 := { target_pose1 with position := { target_pose1.position with z := target_pose1.position.z - 0.04 } }
  let waypoints := waypoints ++ [target_pose1]
  (waypoints, target_pose1)

/-- Lines 252-257: from `target_pose1`, the vector `retreat_waypoints` and the value
of `target_pose1` afterwards. -/
def retreat_waypoints (target_pose1 : Pose) : List Pose × Pose :=
  let waypoints : List Pose := []
  let target_pose1 := { target_pose1 with position := { target_pose1.position with z := target_pose1.position.z + 0.04 } }
  let waypoints := waypoints ++ [target_pose1]
  let target_pose1 := { target_pose1 with position := { target_pose1.position with z := target_pose1.position.z + 0.04 } }
  let waypoints := waypoints ++ [target_pose1]
  (waypoints, target_pose1)

/-- Line 274, `joint_group_positions_arm[0] = 3.14`: `none` when the vector is empty
(index 0 out of range). -/
def set_shoulder_pan : List ℚ → Option (List ℚ)
  | [] => none
  | _ :: rest => some ((3.14 : ℚ) :: rest)

/-- Line 229. -/
def jump_threshold : ℚ := 0.0

/-- Line 230. -/
def eef_step : ℚ := 0.01

/-- Lines 186-292 of `main`, run from `x_pose`, `y_pose` in the environment `w`.
`getCurrentState(10)` is taken to return a state (not a null pointer); the vector
`joint_group_positions_arm` is overwritten by `copyJointGroupPositions` with the
joints of that state. The result is `none` when line 274 writes out of range. -/
def motion_sequence (x_pose y_pose : ℚ) (w : World) : Option World :=
  -- Pregrasp (lines 186-202)
  let w := w.log "Pregrasp Position"
  let target_pose1 := pregrasp_pose x_pose y_pose
  let w := (w.call (Call.setPoseTarget Group.arm target_pose1)).2
  let r := w.call (Call.plan Group.arm)
  let my_plan_arm := r.1.trajectory
  let _success_arm := decide (r.1.code = 1)
  let w := r.2
  let w := (w.call (Call.execute Group.arm my_plan_arm)).2
  -- Open Gripper (lines 204-214)
  let w := w.log "Open Gripper!"
  let w := (w.call (Call.setNamedTarget Group.gripper "gripper_open")).2
  let r := w.call (Call.plan Group.gripper)
  let my_plan_gripper := r.1.trajectory
  let _success_gripper := decide (r.1.code = 1)
  let w := r.2
  let w := (w.call (Call.execute Group.gripper my_plan_gripper)).2
  -- Approach (lines 216-235)
  let w := w.log "Approach to object!"
  let a := approach_waypoints target_pose1
  let target_pose1 := a.2
  let r := w.call (Call.computeCartesianPath Group.arm a.1 eef_step jump_threshold)
  let trajectory_approach := r.1.trajectory
  let _fraction := r.1.fraction
  let w := r.2
  let w := (w.call (Call.execute Group.arm trajectory_approach)).2
  -- Close Gripper (lines 237-246)
  let w := w.log "Close Gripper!"
  let w := (w.call (Call.setNamedTarget Group.gripper "gripper_close")).2
  let r := w.call (Call.plan Group.gripper)
  let my_plan_gripper := r.1.trajectory
  let _success_gripper := decide (r.1.code = 1)
  let w := r.2
  let w := (w.call (Call.execute Group.gripper my_plan_gripper)).2
  -- Retreat (lines 248-264)
  let w := w.log "Retreat from object!"
  let b := retreat_waypoints target_pose1
  let _target_pose1 := b.2
  let r := w.call (Call.computeCartesianPath Group.arm b.1 eef_step jump_threshold)
  let trajectory_retreat := r.1.trajectory
  let _fraction := r.1.fraction
  let w := r.2
  let w := (w.call (Call.execute Group.arm trajectory_retreat)).2
  -- Place (lines 266-281)
  let w := w.log "Rotating Arm"
  let r := w.call (Call.getCurrentState Group.arm 10)
  let joint_group_positions_arm := r.1.joints
  let w := r.2
  match set_shoulder_pan joint_group_positions_arm with
  | none => none
  | some joint_group_positions_arm =>
    let w := (w.call (Call.setJointValueTarget Group.arm joint_group_positions_arm)).2
    let r := w.call (Call.plan Group.arm)
    let my_plan_arm := r.1.trajectory
    let _success_arm := decide (r.1.code = 1)
    let w := r.2
    let w := (w.call (Call.execute Group.arm my_plan_arm)).2
    -- Open Gripper (lines 283-292)
    let w := w.log "Release Object!"
    let w := (w.call (Call.setNamedTarget Group.gripper "gripper_open")).2
    let r := w.call (Call.plan Group.gripper)
    let my_plan_gripper := r.1.trajectory
    let _success_gripper := decide (r.1.code = 1)
    let w := r.2
    let w := (w.call (Call.execute Group.gripper my_plan_gripper)).2
    some w

/-- The trace recorded by the motion sequence started with an empty trace against the
backend answers `backend`. -/
def motion_trace (x_pose y_pose : ℚ) (backend : Nat → Response) : Option (List Call) :=
  (motion_sequence x_pose y_pose { backend := backend, answered := 0, trace := [] }).map World.trace

/-- Lines 127-292 of `main`, which run once the polling loop of lines 123-125 has
ended with the client in state `c`: candidate selection over `c.get_result`, then the
motion sequence from the selected `x_pose`, `y_pose`. The set-up of lines 145-184
(node, executor, move groups, first state reads) makes no motion request and is not
recorded. The value is the recorded trace. -/
def main_after_spin (c : GetPoseClient) (x0 y0 : ℚ) (backend : Nat → Response) :
    Option (List Call) :=
  match candidate_selection x0 y0 c.get_result with
  | none => none
  | some s => motion_trace s.x_pose s.y_pose backend

/-! ## Reading the claims: predicates and trace views used in the statements -/

/-- The selection predicate in the words of the specification: the first primitive is
a BOX (type 1) whose dimensions satisfy x < 0.05, y < 0.05 and z < 0.1. -/
def small_box (o : GraspableObject) : Prop :=
  ∃ p ps d0 d1 d2 ds, o.object.primitives = p :: ps ∧ p.type = 1 ∧
    p.dimensions = d0 :: d1 :: d2 :: ds ∧ d0 < (0.05 : ℚ) ∧ d1 < (0.05 : ℚ) ∧ d2 < (0.1 : ℚ)

/-- The loop body can be evaluated on `o`: the condition reads in range, and when it
holds the object has a first primitive pose. -/
def evaluable (o : GraspableObject) : Prop :=
  selection_condition o = some false ∨
    (selection_condition o = some true ∧ o.object.primitive_poses ≠ [])

instance evaluable_decidable (o : GraspableObject) : Decidable (evaluable o) := by
  unfold evaluable
  infer_instance

/-- A box of dimensions (0.03, 0.03, 0.05) whose first primitive pose is at
`(x, y, 0.4)`. -/
def box_at (x y : ℚ) : GraspableObject :=
  { object := { primitives := [{ type := 1, dimensions := [0.03, 0.03, 0.05] }],
                primitive_poses := [{ position := { x := x, y := y, z := 0.4 },
                                      orientation := { x := 0, y := 0, z := 0, w := 1 } }] } }

/-- A cylinder (type 3) of height 0.1 and radius 0.02, at `(0.5, 0.2, 0.4)`. -/
def cylinder : GraspableObject :=
  { object := { primitives := [{ type := 3, dimensions := [0.1, 0.02] }],
                primitive_poses := [{ position := { x := 0.5, y := 0.2, z := 0.4 },
                                      orientation := { x := 0, y := 0, z := 0, w := 1 } }] } }

/-- A box of dimensions (0.06, 0.04, 0.08), at `(0.3, 0.1, 0.4)`: too wide along x. -/
def wide_box : GraspableObject :=
  { object := { primitives := [{ type := 1, dimensions := [0.06, 0.04, 0.08] }],
                primitive_poses := [{ position := { x := 0.3, y := 0.1, z := 0.4 },
                                      orientation := { x := 0, y := 0, z := 0, w := 1 } }] } }

/-- An object with two primitives and one pose: the first primitive is a BOX with an
empty dimensions vector, the second a BOX of dimensions (0.03, 0.03, 0.05). -/
def two_primitive_object : GraspableObject :=
  { object := { primitives := [{ type := 1, dimensions := [] },
                               { type := 1, dimensions := [0.03, 0.03, 0.05] }],
                primitive_poses := [{ position := { x := 0.3, y := 0.1, z := 0.4 },
                                      orientation := { x := 0, y := 0, z := 0, w := 1 } }] } }

/-- A BOX whose dimensions vector has only the two entries (0.03, 0.03), at
`(0.3, 0.1, 0.4)`. -/
def short_box : GraspableObject :=
  { object := { primitives := [{ type := 1, dimensions := [0.03, 0.03] }],
                primitive_poses := [{ position := { x := 0.3, y := 0.1, z := 0.4 },
                                      orientation := { x := 0, y := 0, z := 0, w := 1 } }] } }

/-- An object without any primitive (for instance one described by a mesh only), with
one pose at `(0.3, 0.1, 0.4)`. -/
def no_primitive_object : GraspableObject :=
  { object := { primitives := [],
                primitive_poses := [{ position := { x := 0.3, y := 0.1, z := 0.4 },
                                      orientation := { x := 0, y := 0, z := 0, w := 1 } }] } }

/-- A backend that refuses everything: every `plan` and `execute` returns
PLANNING_FAILED (-1) with an empty trajectory, every Cartesian path has fraction 0;
the arm state has the joints 0.1, ..., 0.6. -/
def failing_backend : Nat → Response :=
  fun _ => { code := -1, trajectory := { points := [] }, fraction := 0,
             joints := [0.1, 0.2, 0.3, 0.4, 0.5, 0.6] }

/-- The stages of the sequencer, as the specification names them. -/
inductive Stage where
  | PREGRASP
  | OPEN_GRIPPER
  | APPROACH
  | CLOSE_GRIPPER
  | RETREAT
  | REPOSITION
  | RELEASE
deriving DecidableEq, Repr

/-- The kind of motion request a stage makes. -/
inductive Motion where
  | pose_target
  | named_target (name : String)
  | cartesian_path
  | joint_target
deriving DecidableEq, Repr

/-- One entry of the stage trace: the stage, the group it drives and its motion
request. -/
structure StageRecord where
  stage : Stage
  group : Group
  motion : Motion
deriving DecidableEq, Repr

/-- The stage opened by each `RCLCPP_INFO` line of the motion sequence. -/
def stage_of_banner (msg : String) : Option Stage :=
  if msg = "Pregrasp Position" then some Stage.PREGRASP
  else if msg = "Open Gripper!" then some Stage.OPEN_GRIPPER
  else if msg = "Approach to object!" then some Stage.APPROACH
  else if msg = "Close Gripper!" then some Stage.CLOSE_GRIPPER
  else if msg = "Retreat from object!" then some Stage.RETREAT
  else if msg = "Rotating Arm" then some Stage.REPOSITION
  else if msg = "Release Object!" then some Stage.RELEASE
  else none

/-- Cut a trace at its `info` lines: the calls that come before the first `info` line,
and for each `info` line its message with the calls up to the next `info` line. -/
def split_at_banners : List Call → List Call × List (String × List Call)
  | [] => ([], [])
  | Call.info msg :: rest =>
    let r := split_at_banners rest
    ([], (msg, r.1) :: r.2)
  | c :: rest =>
    let r := split_at_banners rest
    (c :: r.1, r.2)

/-- Read the calls of one stage. A stage is one target-setting call followed by one
`plan` and one `execute` on the same group (the joint target is preceded by the state
read), or one `computeCartesianPath` followed by one `execute` on the same group;
anything else is not a stage. -/
def read_stage (s : Stage) : List Call → Option StageRecord
  | [Call.setPoseTarget g _, Call.plan g1, Call.execute g2 _] =>
    if g = g1 ∧ g = g2 then some ⟨s, g, Motion.pose_target⟩ else none
  | [Call.setNamedTarget g name, Call.plan g1, Call.execute g2 _] =>
    if g = g1 ∧ g = g2 then some ⟨s, g, Motion.named_target name⟩ else none
  | [Call.getCurrentState g0 _, Call.setJointValueTarget g _, Call.plan g1, Call.execute g2 _] =>
    if g = g0 ∧ g = g1 ∧ g = g2 then some ⟨s, g, Motion.joint_target⟩ else none
  | [Call.computeCartesianPath g _ _ _, Call.execute g2 _] =>
    if g = g2 then some ⟨s, g, Motion.cartesian_path⟩ else none
  | _ => none

/-- Read the stage records of a list of banner-delimited segments. -/
def read_stages : List (String × List Call) → Option (List StageRecord)
  | [] => some []
  | (msg, calls) :: rest =>
    match stage_of_banner msg with
    | none => none
    | some s =>
      match read_stage s calls with
      | none => none
      | some r =>
        match read_stages rest with
        | none => none
        | some rs => some (r :: rs)

/-- The stage trace of a recorded trace: `none` unless the trace is a sequence of
stages, each opened by its banner and made of exactly the calls of one stage. -/
def stage_trace (t : List Call) : Option (List StageRecord) :=
  match split_at_banners t with
  | ([], segments) => read_stages segments
  | (_ :: _, _) => none

/-! ## Lemmas on the selection loop -/

/-- The condition of the source holds exactly on the objects that the specification
calls qualifying. -/
theorem selection_condition_eq_true_iff (o : GraspableObject) :
    selection_condition o = some true ↔ small_box o := by
  obtain ⟨⟨prims, poses⟩⟩ := o
  unfold selection_condition small_box
  rcases prims with _ | ⟨⟨ty, dims⟩, ps⟩
  · simp
  · rcases dims with _ | ⟨d0, _ | ⟨d1, _ | ⟨d2, ds⟩⟩⟩
    · by_cases hty : ty = 1 <;> simp [hty]
    · by_cases hty : ty = 1 <;> by_cases h0 : d0 < (0.05 : ℚ) <;> simp [hty, h0]
    · by_cases hty : ty = 1 <;> by_cases h0 : d0 < (0.05 : ℚ) <;>
        by_cases h1 : d1 < (0.05 : ℚ) <;> simp [hty, h0, h1]
    · by_cases hty : ty = 1
      · by_cases h0 : d0 < (0.05 : ℚ)
        · by_cases h1 : d1 < (0.05 : ℚ)
          · simp only [hty, h0, h1, List.getElem?_cons_zero, List.getElem?_cons_succ, if_true,
              Option.some.injEq, decide_eq_true_eq, List.cons.injEq]
            constructor
            · intro h2
              exact ⟨⟨1, d0 :: d1 :: d2 :: ds⟩, ps, d0, d1, d2, ds, ⟨rfl, rfl⟩, rfl,
                rfl, h0, h1, h2⟩
            · rintro ⟨p, ps1, e0, e1, e2, es, ⟨rfl, _⟩, _, hd, _, _, h2⟩
              simp only [List.cons.injEq] at hd
              rw [hd.2.2.1]
              exact h2
          · simp [hty, h0, h1]
        · simp [hty, h0]
      · simp [hty]

/-- When the first primitive exists and has three dimensions, the condition is
evaluated without an out-of-range lookup. -/
theorem selection_condition_defined (o : GraspableObject) (p : SolidPrimitive)
    (ps : List SolidPrimitive) (hp : o.object.primitives = p :: ps)
    (hd : 3 ≤ p.dimensions.length) :
    selection_condition o = some true ∨ selection_condition o = some false := by
  obtain ⟨ty, dims⟩ := p
  rcases dims with _ | ⟨d0, _ | ⟨d1, _ | ⟨d2, ds⟩⟩⟩
  · simp at hd
  · simp at hd
  · simp at hd
  · unfold selection_condition
    by_cases hty : ty = 1 <;> by_cases h0 : d0 < (0.05 : ℚ) <;>
      by_cases h1 : d1 < (0.05 : ℚ) <;> by_cases h2 : d2 < (0.1 : ℚ) <;>
      simp [hp, hty, h0, h1, h2]

theorem selection_condition_box_at (x y : ℚ) : selection_condition (box_at x y) = some true := by
  norm_num [selection_condition, box_at]

theorem selection_condition_cylinder : selection_condition cylinder = some false := by
  simp [selection_condition, cylinder]

theorem selection_condition_wide_box : selection_condition wide_box = some false := by
  norm_num [selection_condition, wide_box]

/-- On an object that has a first primitive, with three dimensions when that
primitive is a BOX, and that is not qualifying, the condition is evaluated in range
and is false. -/
theorem selection_condition_false_of_not_small_box (o : GraspableObject)
    (p : SolidPrimitive) (ps : List SolidPrimitive) (hp : o.object.primitives = p :: ps)
    (hd : p.type = 1 → 3 ≤ p.dimensions.length) (hn : ¬ small_box o) :
    selection_condition o = some false := by
  by_cases hty : p.type = 1
  · rcases selection_condition_defined o p ps hp (hd hty) with ht | hf
    · exact absurd ((selection_condition_eq_true_iff o).mp ht) hn
    · exact hf
  · simp [selection_condition, hp, hty]

theorem not_small_box_cylinder : ¬ small_box cylinder := by
  intro h
  have hc := (selection_condition_eq_true_iff cylinder).mpr h
  simp [selection_condition, cylinder] at hc

theorem not_small_box_wide_box : ¬ small_box wide_box := by
  intro h
  have hc := (selection_condition_eq_true_iff wide_box).mpr h
  norm_num [selection_condition, wide_box] at hc

/-- Over objects on which the condition is false the loop changes nothing but the
visit log. -/
theorem selection_loop_no_match (post : List GraspableObject) (s : Selection)
    (h : ∀ o ∈ post, selection_condition o = some false) :
    selection_loop post s = some { s with visited := s.visited ++ post } := by
  induction post generalizing s with
  | nil => simp [selection_loop]
  | cons o rest ih =>
    have ho : selection_condition o = some false := h o (List.mem_cons_self _ _)
    have hrest : ∀ o1 ∈ rest, selection_condition o1 = some false :=
      fun o1 h1 => h o1 (List.mem_cons_of_mem _ h1)
    simp [selection_loop, selection_body, ho, ih _ hrest]

/-- Over evaluable objects the loop runs to its end and logs every object once, in
order. -/
theorem selection_loop_defined (objs : List GraspableObject) (s : Selection)
    (h : ∀ o ∈ objs, evaluable o) :
    ∃ s1, selection_loop objs s = some s1 ∧ s1.visited = s.visited ++ objs := by
  induction objs generalizing s with
  | nil => simp [selection_loop]
  | cons o rest ih =>
    have hrest : ∀ o1 ∈ rest, evaluable o1 := fun o1 h1 => h o1 (List.mem_cons_of_mem _ h1)
    rcases h o (List.mem_cons_self _ _) with ho | ⟨ho, hp⟩
    · obtain ⟨s1, h1, h2⟩ := ih { s with visited := s.visited ++ [o] } hrest
      exact ⟨s1, by simp [selection_loop, selection_body, ho, h1], by simp [h2]⟩
    · cases hpp : o.object.primitive_poses with
      | nil => exact absurd hpp hp
      | cons pose ps =>
        obtain ⟨s1, h1, h2⟩ := ih { x_pose := pose.position.x, y_pose := pose.position.y,
                                    visited := s.visited ++ [o] } hrest
        exact ⟨s1, by simp [selection_loop, selection_body, ho, hpp, h1], by simp [h2]⟩

/-- The loop ends with the position of the last object on which the condition holds. -/
theorem selection_loop_last_match (pre post : List GraspableObject) (o : GraspableObject)
    (pose : Pose) (s : Selection)
    (hpre : ∀ o1 ∈ pre, evaluable o1)
    (ho : selection_condition o = some true)
    (hpose : o.object.primitive_poses[0]? = some pose)
    (hpost : ∀ o1 ∈ post, selection_condition o1 = some false) :
    selection_loop (pre ++ o :: post) s =
      some { x_pose := pose.position.x, y_pose := pose.position.y,
             visited := s.visited ++ (pre ++ o :: post) } := by
  induction pre generalizing s with
  | nil =>
    simp [selection_loop, selection_body, ho, hpose, selection_loop_no_match _ _ hpost]
  | cons a rest ih =>
    have hrest : ∀ o1 ∈ rest, evaluable o1 := fun o1 h1 => hpre o1 (List.mem_cons_of_mem _ h1)
    rcases hpre a (List.mem_cons_self _ _) with ha | ⟨ha, hp⟩
    · simp [selection_loop, selection_body, ha, ih _ hrest]
    · cases hpp : a.object.primitive_poses with
      | nil => exact absurd hpp hp
      | cons pa ps =>
        simp [selection_loop, selection_body, ha, hpp, ih _ hrest]

/-! ## Lemma on the motion sequence -/

/-- The full trace of the motion sequence, for any backend whose arm state at the
"Rotating Arm" step has the joints `j :: js`. -/
theorem motion_trace_eq (x y : ℚ) (backend : Nat → Response) (j : ℚ) (js : List ℚ)
    (h : (backend 13).joints = j :: js) :
    motion_trace x y backend = some
      [ Call.info "Pregrasp Position",
        Call.setPoseTarget Group.arm (pregrasp_pose x y),
        Call.plan Group.arm,
        Call.execute Group.arm (backend 1).trajectory,
        Call.info "Open Gripper!",
        Call.setNamedTarget Group.gripper "gripper_open",
        Call.plan Group.gripper,
        Call.execute Group.gripper (backend 4).trajectory,
        Call.info "Approach to object!",
        Call.computeCartesianPath Group.arm (approach_waypoints (pregrasp_pose x y)).1 0.01 0.0,
        Call.execute Group.arm (backend 6).trajectory,
        Call.info "Close Gripper!",
        Call.setNamedTarget Group.gripper "gripper_close",
        Call.plan Group.gripper,
        Call.execute Group.gripper (backend 9).trajectory,
        Call.info "Retreat from object!",
        Call.computeCartesianPath Group.arm
          (retreat_waypoints (approach_waypoints (pregrasp_pose x y)).2).1 0.01 0.0,
        Call.execute Group.arm (backend 11).trajectory,
        Call.info "Rotating Arm",
        Call.getCurrentState Group.arm 10,
        Call.setJointValueTarget Group.arm (3.14 :: js),
        Call.plan Group.arm,
        Call.execute Group.arm (backend 15).trajectory,
        Call.info "Release Object!",
        Call.setNamedTarget Group.gripper "gripper_open",
        Call.plan Group.gripper,
        Call.execute Group.gripper (backend 18).trajectory ] := by
  simp [motion_trace, motion_sequence, World.log, World.call, h, set_shoulder_pan,
    eef_step, jump_threshold]

/-! ## Claims on the perception client -/

/-- C2: for a client that has stored no result yet (`get_result` is empty), whatever
result code and object list `L` are delivered to `result_callback`, afterwards
`is_goal_done` is true, and `get_result` is `L` when the code is SUCCEEDED and the
empty list for each other code (ABORTED, CANCELED, UNKNOWN). -/
theorem result_callback_stores_only_succeeded (c : GetPoseClient) (code : ResultCode)
    (L : List GraspableObject) (h : c.get_result = []) :
    (c.result_callback { code := code, objects := L }).is_goal_done = true ∧
    (c.result_callback { code := code, objects := L }).get_result =
      (if code = ResultCode.SUCCEEDED then L else []) := by
  simp only [GetPoseClient.get_result] at h
  cases code <;>
    simp [GetPoseClient.result_callback, GetPoseClient.is_goal_done,
      GetPoseClient.get_result, h]

/-- Witness of C2: a fresh client whose goal was submitted receives ABORTED together
with a one-box list; it is done and its result is empty. -/
theorem result_callback_stores_only_succeeded_witness :
    (GetPoseClient.create.send_goal true).sent_goals = [{ plan_grasps := false }] ∧
    (GetPoseClient.create.send_goal true).get_result = [] ∧
    ((GetPoseClient.create.send_goal true).result_callback
      { code := ResultCode.ABORTED, objects := [box_at 0.25 (-0.05)] }).is_goal_done = true ∧
    ((GetPoseClient.create.send_goal true).result_callback
      { code := ResultCode.ABORTED, objects := [box_at 0.25 (-0.05)] }).get_result =
      (if ResultCode.ABORTED = ResultCode.SUCCEEDED then [box_at 0.25 (-0.05)] else []) :=
  ⟨rfl, rfl,
    result_callback_stores_only_succeeded (GetPoseClient.create.send_goal true)
      ResultCode.ABORTED [box_at 0.25 (-0.05)] rfl⟩

/-- C9: a freshly constructed client whose `send_goal` finds the action server
unavailable (the 10 s wait returns false) submits no goal and cancels its timer, and
afterwards `is_goal_done` is true and `get_result` is the empty object list. -/
theorem send_goal_timeout_consumes_cycle :
    (GetPoseClient.create.send_goal false).sent_goals = [] ∧
    (GetPoseClient.create.send_goal false).timer_running = false ∧
    (GetPoseClient.create.send_goal false).is_goal_done = true ∧
    (GetPoseClient.create.send_goal false).get_result = [] := by
  refine ⟨rfl, rfl, rfl, rfl⟩

/-! ## Claims on the waypoints and the joint target -/

/-- C4: for every selected position (x, y), in exact arithmetic the approach
waypoints built from the pregrasp pose are, in this order,
(x + 0.012079, y - 0.009217, 0.26 - 0.04) and (x + 0.012079, y - 0.009217, 0.26 - 0.08),
both with the pregrasp orientation (0.707, -0.707, 0, 0); for the pregrasp position
(0.30, -0.10, 0.26) they are (0.312079, -0.109217, 0.22) and (0.312079, -0.109217, 0.18). -/
theorem approach_waypoints_exact (x y : ℚ) :
    (approach_waypoints (pregrasp_pose x y)).1 =
      [ { position := { x := x + 0.012079, y := y - 0.009217, z := 0.26 - 0.04 },
          orientation := { x := 0.707, y := -0.707, z := 0, w := 0 } },
        { position := { x := x + 0.012079, y := y - 0.009217, z := 0.26 - 0.08 },
          orientation := { x := 0.707, y := -0.707, z := 0, w := 0 } } ] ∧
    (pregrasp_pose 0.30 (-0.10)).position = { x := 0.30, y := -0.10, z := 0.26 } ∧
    (approach_waypoints (pregrasp_pose 0.30 (-0.10))).1 =
      [ { position := { x := 0.312079, y := -0.109217, z := 0.22 },
          orientation := { x := 0.707, y := -0.707, z := 0, w := 0 } },
        { position := { x := 0.312079, y := -0.109217, z := 0.18 },
          orientation := { x := 0.707, y := -0.707, z := 0, w := 0 } } ] := by
  refine ⟨?_, ?_, ?_⟩
  · simp only [approach_waypoints, pregrasp_pose, error_x, error_y, List.nil_append,
      List.singleton_append, List.cons.injEq, Pose.mk.injEq, Point.mk.injEq, and_true]
    norm_num
    ring
  · rfl
  · simp only [approach_waypoints, pregrasp_pose, error_x, error_y, List.nil_append,
      List.singleton_append, List.cons.injEq, Pose.mk.injEq, Point.mk.injEq, and_true]
    norm_num

/-- C7: for every selected position (x, y), in exact arithmetic the retreat waypoints
have the x and y of the approach waypoints (x + 0.012079, y - 0.009217) and the
heights 0.22 then 0.26; the heights passed on the way up (0.18, 0.22, 0.26) are the
heights passed on the way down (0.26, 0.22, 0.18) in reverse, and the pose ends at
the pregrasp height. -/
theorem retreat_mirrors_approach (x y : ℚ) :
    (retreat_waypoints (approach_waypoints (pregrasp_pose x y)).2).1 =
      [ { position := { x := x + 0.012079, y := y - 0.009217, z := 0.22 },
          orientation := { x := 0.707, y := -0.707, z := 0, w := 0 } },
        { position := { x := x + 0.012079, y := y - 0.009217, z := 0.26 },
          orientation := { x := 0.707, y := -0.707, z := 0, w := 0 } } ] ∧
    (approach_waypoints (pregrasp_pose x y)).2.position.z = 0.18 ∧
    ((approach_waypoints (pregrasp_pose x y)).2.position.z ::
        (retreat_waypoints (approach_waypoints (pregrasp_pose x y)).2).1.map
          (fun p => p.position.z)) =
      ((pregrasp_pose x y).position.z ::
        (approach_waypoints (pregrasp_pose x y)).1.map (fun p => p.position.z)).reverse ∧
    (retreat_waypoints (approach_waypoints (pregrasp_pose x y)).2).1.map
        (fun p => (p.position.x, p.position.y)) =
      (approach_waypoints (pregrasp_pose x y)).1.map (fun p => (p.position.x, p.position.y)) ∧
    (retreat_waypoints (approach_waypoints (pregrasp_pose x y)).2).2.position.z =
      (pregrasp_pose x y).position.z := by
  refine ⟨?_, ?_, ?_, ?_, ?_⟩
  · simp only [retreat_waypoints, approach_waypoints, pregrasp_pose, error_x, error_y,
      List.nil_append, List.singleton_append, List.cons.injEq, Pose.mk.injEq, Point.mk.injEq,
      and_true]
    norm_num
    ring
  · simp only [approach_waypoints, pregrasp_pose]
    norm_num
  · simp only [retreat_waypoints, approach_waypoints, pregrasp_pose, List.nil_append,
      List.singleton_append, List.map_cons, List.map_nil, List.reverse_cons, List.reverse_nil,
      List.cons_append, List.cons.injEq, and_true]
    norm_num
  · simp [retreat_waypoints, approach_waypoints, pregrasp_pose]
  · simp only [retreat_waypoints, approach_waypoints, pregrasp_pose]
    norm_num

/-- C6: for every non-empty vector of current arm joint positions read at the
"Rotating Arm" step, the joint target has the same length, its first element is 3.14
and every other element is the current joint position of the same index; that vector
is the one passed to `setJointValueTarget` on the arm. -/
theorem reposition_joint_target (joints : List ℚ) (h : joints ≠ []) :
    ∃ target, set_shoulder_pan joints = some target ∧
      target.length = joints.length ∧
      target[0]? = some (3.14 : ℚ) ∧
      (∀ i, 0 < i → target[i]? = joints[i]?) ∧
      ∀ (x y : ℚ) (backend : Nat → Response), (backend 13).joints = joints →
        ∃ t, motion_trace x y backend = some t ∧
          Call.setJointValueTarget Group.arm target ∈ t := by
  cases joints with
  | nil => exact absurd rfl h
  | cons j js =>
    refine ⟨3.14 :: js, rfl, by simp, by simp, ?_, ?_⟩
    · intro i hi
      cases i with
      | zero => exact absurd hi (Nat.lt_irrefl 0)
      | succ k => simp
    · intro x y backend hb
      exact ⟨_, motion_trace_eq x y backend j js hb, by simp⟩

/-- Witness of C6: the joints [0.1, 0.2, 0.3, 0.4, 0.5, 0.6] become
[3.14, 0.2, 0.3, 0.4, 0.5, 0.6]. -/
theorem reposition_joint_target_witness :
    set_shoulder_pan [0.1, 0.2, 0.3, 0.4, 0.5, 0.6] = some [3.14, 0.2, 0.3, 0.4, 0.5, 0.6] ∧
    ∃ target, set_shoulder_pan [0.1, 0.2, 0.3, 0.4, 0.5, 0.6] = some target ∧
      target.length = ([0.1, 0.2, 0.3, 0.4, 0.5, 0.6] : List ℚ).length ∧
      target[0]? = some (3.14 : ℚ) ∧
      (∀ i, 0 < i → target[i]? = ([0.1, 0.2, 0.3, 0.4, 0.5, 0.6] : List ℚ)[i]?) ∧
      ∀ (x y : ℚ) (backend : Nat → Response),
        (backend 13).joints = [0.1, 0.2, 0.3, 0.4, 0.5, 0.6] →
        ∃ t, motion_trace x y backend = some t ∧
          Call.setJointValueTarget Group.arm target ∈ t :=
  ⟨rfl, reposition_joint_target [0.1, 0.2, 0.3, 0.4, 0.5, 0.6] (by simp)⟩

/-! ## Claims on the candidate selection -/

/-- C1, as stated, fails: with two qualifying boxes, the first at (0.25, -0.05) and the
second at (0.40, 0.10), the selection ends with the position of the second one, not
of the first qualifying object in list order. -/
theorem selection_first_match_overwritten :
    small_box (box_at 0.25 (-0.05)) ∧
    (box_at 0.25 (-0.05)).object.primitive_poses[0]? =
      some { position := { x := 0.25, y := -0.05, z := 0.4 },
             orientation := { x := 0, y := 0, z := 0, w := 1 } } ∧
    small_box (box_at 0.40 0.10) ∧
    candidate_selection 0 0 [box_at 0.25 (-0.05), box_at 0.40 0.10] =
      some { x_pose := 0.40, y_pose := 0.10,
             visited := [box_at 0.25 (-0.05), box_at 0.40 0.10] } ∧
    ((0.40 : ℚ), (0.10 : ℚ)) ≠ (0.25, -0.05) := by
  refine ⟨?_, rfl, ?_, ?_, ?_⟩
  · exact (selection_condition_eq_true_iff _).mp (selection_condition_box_at _ _)
  · exact (selection_condition_eq_true_iff _).mp (selection_condition_box_at _ _)
  · simp [candidate_selection, selection_loop, selection_body, selection_condition_box_at]
    simp [box_at]
  · norm_num

/-- C1, amended: for every object list on which the loop body can be evaluated on each
object and that contains a qualifying object `o` (first primitive a BOX with
dimensions x < 0.05, y < 0.05, z < 0.1) after which the condition is false on every
object, i.e. `o` is the LAST qualifying object in list order, the selection ends with
(x_pose, y_pose) equal to the position of the first primitive pose of `o`, whatever
the initial contents of the two variables. -/
theorem selection_yields_last_match (x0 y0 : ℚ) (pre post : List GraspableObject)
    (o : GraspableObject)
    (hpre : ∀ o1 ∈ pre, evaluable o1)
    (ho : small_box o) (hposes : o.object.primitive_poses ≠ [])
    (hpost : ∀ o1 ∈ post, selection_condition o1 = some false) :
    ∃ pose, o.object.primitive_poses[0]? = some pose ∧
      candidate_selection x0 y0 (pre ++ o :: post) =
        some { x_pose := pose.position.x, y_pose := pose.position.y,
               visited := pre ++ o :: post } := by
  cases hpp : o.object.primitive_poses with
  | nil => exact absurd hpp hposes
  | cons pose ps =>
    refine ⟨pose, by simp, ?_⟩
    have hc := (selection_condition_eq_true_iff o).mpr ho
    have hl := selection_loop_last_match pre post o pose
      { x_pose := x0, y_pose := y0, visited := [] } hpre hc (by simp [hpp]) hpost
    simpa [candidate_selection] using hl

/-- Witness of the amended C1: in [box at (0.25, -0.05), cylinder, box at (0.40, 0.10),
cylinder] the last qualifying object is the box at (0.40, 0.10). -/
theorem selection_yields_last_match_witness :
    ∃ pose, (box_at 0.40 0.10).object.primitive_poses[0]? = some pose ∧
      candidate_selection 7 7 ([box_at 0.25 (-0.05), cylinder] ++ box_at 0.40 0.10 :: [cylinder]) =
        some { x_pose := pose.position.x, y_pose := pose.position.y,
               visited := [box_at 0.25 (-0.05), cylinder] ++ box_at 0.40 0.10 :: [cylinder] } :=
  selection_yields_last_match 7 7 [box_at 0.25 (-0.05), cylinder] [cylinder] (box_at 0.40 0.10)
    (by
      intro o1 h1
      simp only [List.mem_cons, List.mem_singleton, List.not_mem_nil, or_false] at h1
      rcases h1 with rfl | rfl
      · exact Or.inr ⟨selection_condition_box_at _ _, by simp [box_at]⟩
      · exact Or.inl selection_condition_cylinder)
    ((selection_condition_eq_true_iff _).mp (selection_condition_box_at _ _))
    (by simp [box_at])
    (by
      intro o1 h1
      simp only [List.mem_singleton] at h1
      rw [h1]
      exact selection_condition_cylinder)

/-- C3 at its failing inputs: on the empty list, on a list with no BOX and on a list
whose only box has dimensions (0.06, 0.04, 0.08), the selection leaves `x_pose` and
`y_pose` at their indeterminate initial contents `x0`, `y0`; and after a server
timeout (empty result) `main` goes on to pass (x0, y0, 0.26) to `setPoseTarget` on
the arm as its first backend call. -/
theorem no_candidate_still_sets_pose_target (x0 y0 : ℚ) :
    candidate_selection x0 y0 [] = some { x_pose := x0, y_pose := y0, visited := [] } ∧
    candidate_selection x0 y0 [cylinder] =
      some { x_pose := x0, y_pose := y0, visited := [cylinder] } ∧
    candidate_selection x0 y0 [wide_box] =
      some { x_pose := x0, y_pose := y0, visited := [wide_box] } ∧
    (GetPoseClient.create.send_goal false).is_goal_done = true ∧
    (GetPoseClient.create.send_goal false).get_result = [] ∧
    (main_after_spin (GetPoseClient.create.send_goal false) x0 y0 failing_backend).map
        (List.take 2) =
      some [ Call.info "Pregrasp Position",
             Call.setPoseTarget Group.arm
               { position := { x := x0, y := y0, z := 0.26 },
                 orientation := { x := 0.707, y := -0.707, z := 0, w := 0 } } ] := by
  refine ⟨rfl, ?_, ?_, rfl, rfl, ?_⟩
  · simp [candidate_selection, selection_loop, selection_body, selection_condition_cylinder]
  · simp [candidate_selection, selection_loop, selection_body, selection_condition_wide_box]
  · have hb : (failing_backend 13).joints = (0.1 : ℚ) :: [0.2, 0.3, 0.4, 0.5, 0.6] := rfl
    have hr : (GetPoseClient.create.send_goal false).get_result = [] := rfl
    simp only [main_after_spin, hr, candidate_selection, selection_loop,
      motion_trace_eq x0 y0 failing_backend _ _ hb, pregrasp_pose, Option.map_some',
      List.take_succ_cons, List.take_zero]
    norm_num

/-- C8, as stated, fails: each of the two lists below holds exactly one qualifying
object, the box at (0.25, -0.05), and one non-qualifying object, yet the selection
does not end with (0.25, -0.05): after the box, the BOX with two dimensions makes the
loop read `dimensions[2]` out of range, and the object without primitives makes it
read `primitives[0]` out of range. -/
theorem selection_single_match_out_of_range :
    small_box (box_at 0.25 (-0.05)) ∧
    ¬ small_box short_box ∧
    ¬ small_box no_primitive_object ∧
    candidate_selection 7 7 [box_at 0.25 (-0.05), short_box] = none ∧
    candidate_selection 7 7 [no_primitive_object, box_at 0.25 (-0.05)] = none := by
  refine ⟨?_, ?_, ?_, ?_, ?_⟩
  · exact (selection_condition_eq_true_iff _).mp (selection_condition_box_at _ _)
  · intro h
    have hc := (selection_condition_eq_true_iff short_box).mpr h
    have hs : selection_condition short_box = none := by
      norm_num [selection_condition, short_box]
    rw [hs] at hc
    cases hc
  · intro h
    have hc := (selection_condition_eq_true_iff no_primitive_object).mpr h
    simp [selection_condition, no_primitive_object] at hc
  · have hs : selection_condition short_box = none := by
      norm_num [selection_condition, short_box]
    simp [candidate_selection, selection_loop, selection_body, selection_condition_box_at, hs]
    simp [box_at]
  · simp [candidate_selection, selection_loop, selection_body, selection_condition,
      no_primitive_object]

/-- C8, amended: for every object list `objs` that is an ordering (permutation) of one
qualifying object `box` (first primitive a BOX with dimensions x < 0.05, y < 0.05,
z < 0.1) whose first primitive pose is `pose`, together with any objects `others`
that are not qualifying and each have a first primitive, with at least 3 dimensions
when that primitive is a BOX (a cylinder with two dimensions is such an object), the
selection ends with the (x, y) position of `pose`. -/
theorem selection_single_match_any_order (x0 y0 : ℚ) (box : GraspableObject)
    (others objs : List GraspableObject) (pose : Pose)
    (hbox : small_box box)
    (hpose : box.object.primitive_poses[0]? = some pose)
    (hothers : ∀ o ∈ others, ¬ small_box o)
    (hread : ∀ o ∈ others, ∃ p ps, o.object.primitives = p :: ps ∧
      (p.type = 1 → 3 ≤ p.dimensions.length))
    (hperm : objs.Perm (box :: others)) :
    candidate_selection x0 y0 objs =
      some { x_pose := pose.position.x, y_pose := pose.position.y, visited := objs } := by
  have hfalse : ∀ o ∈ others, selection_condition o = some false := by
    intro o ho
    obtain ⟨p, ps, hp, hd⟩ := hread o ho
    exact selection_condition_false_of_not_small_box o p ps hp hd (hothers o ho)
  have hmem : box ∈ objs := hperm.symm.subset (List.mem_cons_self _ _)
  obtain ⟨pre, post, rfl⟩ := List.append_of_mem hmem
  have hrest : (pre ++ post).Perm others :=
    (List.perm_middle.symm.trans hperm).cons_inv
  have hpre : ∀ o1 ∈ pre, evaluable o1 := fun o1 h1 =>
    Or.inl (hfalse o1 (hrest.subset (List.mem_append_left _ h1)))
  have hpost : ∀ o1 ∈ post, selection_condition o1 = some false := fun o1 h1 =>
    hfalse o1 (hrest.subset (List.mem_append_right _ h1))
  have hc := (selection_condition_eq_true_iff box).mpr hbox
  have hl := selection_loop_last_match pre post box pose
    { x_pose := x0, y_pose := y0, visited := [] } hpre hc hpose hpost
  simpa [candidate_selection] using hl

/-- Witness of the amended C8: the box at (0.25, -0.05) of dimensions
(0.03, 0.03, 0.05) with a cylinder and a box that is too wide, the wide box coming
after it, selects (0.25, -0.05); so does the box with one cylinder, in either order. -/
theorem selection_single_match_any_order_witness :
    candidate_selection 7 7 [cylinder, box_at 0.25 (-0.05), wide_box] =
      some { x_pose := 0.25, y_pose := -0.05,
             visited := [cylinder, box_at 0.25 (-0.05), wide_box] } ∧
    candidate_selection 7 7 [cylinder, box_at 0.25 (-0.05)] =
      some { x_pose := 0.25, y_pose := -0.05, visited := [cylinder, box_at 0.25 (-0.05)] } ∧
    candidate_selection 7 7 [box_at 0.25 (-0.05), cylinder] =
      some { x_pose := 0.25, y_pose := -0.05, visited := [box_at 0.25 (-0.05), cylinder] } :=
  ⟨selection_single_match_any_order 7 7 (box_at 0.25 (-0.05)) [cylinder, wide_box]
      [cylinder, box_at 0.25 (-0.05), wide_box]
      { position := { x := 0.25, y := -0.05, z := 0.4 },
        orientation := { x := 0, y := 0, z := 0, w := 1 } }
      ((selection_condition_eq_true_iff _).mp (selection_condition_box_at _ _)) rfl
      (by
        intro o h
        simp only [List.mem_cons, List.mem_singleton, List.not_mem_nil, or_false] at h
        rcases h with rfl | rfl
        · exact not_small_box_cylinder
        · exact not_small_box_wide_box)
      (by
        intro o h
        simp only [List.mem_cons, List.mem_singleton, List.not_mem_nil, or_false] at h
        rcases h with rfl | rfl
        · exact ⟨_, _, rfl, by simp [cylinder]⟩
        · exact ⟨_, _, rfl, by simp [wide_box]⟩)
      (List.Perm.swap _ _ _),
   selection_single_match_any_order 7 7 (box_at 0.25 (-0.05)) [cylinder]
      [cylinder, box_at 0.25 (-0.05)]
      { position := { x := 0.25, y := -0.05, z := 0.4 },
        orientation := { x := 0, y := 0, z := 0, w := 1 } }
      ((selection_condition_eq_true_iff _).mp (selection_condition_box_at _ _)) rfl
      (by
        intro o h
        simp only [List.mem_singleton] at h
        rw [h]
        exact not_small_box_cylinder)
      (by
        intro o h
        simp only [List.mem_singleton] at h
        rw [h]
        exact ⟨_, _, rfl, by simp [cylinder]⟩)
      (List.Perm.swap _ _ _),
   selection_single_match_any_order 7 7 (box_at 0.25 (-0.05)) [cylinder]
      [box_at 0.25 (-0.05), cylinder]
      { position := { x := 0.25, y := -0.05, z := 0.4 },
        orientation := { x := 0, y := 0, z := 0, w := 1 } }
      ((selection_condition_eq_true_iff _).mp (selection_condition_box_at _ _)) rfl
      (by
        intro o h
        simp only [List.mem_singleton] at h
        rw [h]
        exact not_small_box_cylinder)
      (by
        intro o h
        simp only [List.mem_singleton] at h
        rw [h]
        exact ⟨_, _, rfl, by simp [cylinder]⟩)
      (List.Perm.refl _)⟩

/-- C10, as stated, fails: the object `two_primitive_object` has a primitive with three
dimensions (its second one) and a primitive pose, yet the loop reads
`primitives[0].dimensions[0]` out of range, because its first primitive is a BOX with
no dimensions. -/
theorem selection_reads_first_primitive_out_of_range :
    (∀ o ∈ [two_primitive_object], ∃ p ∈ o.object.primitives, 3 ≤ p.dimensions.length) ∧
    (∀ o ∈ [two_primitive_object], o.object.primitive_poses ≠ []) ∧
    candidate_selection 0 0 [two_primitive_object] = none := by
  refine ⟨?_, ?_, ?_⟩
  · intro o ho
    simp only [List.mem_singleton] at ho
    subst ho
    exact ⟨{ type := 1, dimensions := [0.03, 0.03, 0.05] }, by simp [two_primitive_object],
      by simp⟩
  · intro o ho
    simp only [List.mem_singleton] at ho
    subst ho
    simp [two_primitive_object]
  · simp [candidate_selection, selection_loop, selection_body, selection_condition,
      two_primitive_object]

/-- C10, amended: for every object list in which the FIRST primitive of every object
exists and has a dimensions vector of at least 3 entries, and every object satisfying
the selection predicate has at least one primitive pose, the selection loop performs
no out-of-range lookup (it runs to its end) and visits every object of the list
exactly once, in list order. -/
theorem selection_in_range_visits_once (x0 y0 : ℚ) (objs : List GraspableObject)
    (hprim : ∀ o ∈ objs, ∃ p ps, o.object.primitives = p :: ps ∧ 3 ≤ p.dimensions.length)
    (hpose : ∀ o ∈ objs, small_box o → o.object.primitive_poses ≠ []) :
    ∃ s, candidate_selection x0 y0 objs = some s ∧ s.visited = objs := by
  have hev : ∀ o ∈ objs, evaluable o := by
    intro o ho
    obtain ⟨p, ps, hp, hd⟩ := hprim o ho
    rcases selection_condition_defined o p ps hp hd with ht | hf
    · exact Or.inr ⟨ht, hpose o ho ((selection_condition_eq_true_iff o).mp ht)⟩
    · exact Or.inl hf
  obtain ⟨s, hs, hv⟩ := selection_loop_defined objs
    { x_pose := x0, y_pose := y0, visited := [] } hev
  exact ⟨s, hs, by simpa using hv⟩

/-- Witness of the amended C10: the list [box at (0.25, -0.05), wide box]. -/
theorem selection_in_range_visits_once_witness :
    ∃ s, candidate_selection 7 7 [box_at 0.25 (-0.05), wide_box] = some s ∧
      s.visited = [box_at 0.25 (-0.05), wide_box] :=
  selection_in_range_visits_once 7 7 [box_at 0.25 (-0.05), wide_box]
    (by
      intro o ho
      simp only [List.mem_cons, List.mem_singleton, List.not_mem_nil, or_false] at ho
      rcases ho with rfl | rfl
      · exact ⟨_, _, rfl, by simp⟩
      · exact ⟨_, _, rfl, by simp⟩)
    (by
      intro o ho _
      simp only [List.mem_cons, List.mem_singleton, List.not_mem_nil, or_false] at ho
      rcases ho with rfl | rfl
      · simp [box_at]
      · simp [wide_box])

/-! ## Claim on the stage order -/

/-- C5: whatever the backend answers (any return code of every `plan` and `execute`,
any fraction and trajectory of every `computeCartesianPath`), provided the arm state
read at the "Rotating Arm" step has at least one joint, the motion sequence records
exactly the trace below: the seven stages in the order PREGRASP, OPEN_GRIPPER,
APPROACH, CLOSE_GRIPPER, RETREAT, REPOSITION, RELEASE, none skipped or repeated, each
`plan` or `computeCartesianPath` followed by exactly one `execute` on the same group. -/
theorem motion_sequence_stage_order (x y : ℚ) (backend : Nat → Response)
    (h : (backend 13).joints ≠ []) :
    motion_trace x y backend = some
      [ Call.info "Pregrasp Position",
        Call.setPoseTarget Group.arm (pregrasp_pose x y),
        Call.plan Group.arm,
        Call.execute Group.arm (backend 1).trajectory,
        Call.info "Open Gripper!",
        Call.setNamedTarget Group.gripper "gripper_open",
        Call.plan Group.gripper,
        Call.execute Group.gripper (backend 4).trajectory,
        Call.info "Approach to object!",
        Call.computeCartesianPath Group.arm (approach_waypoints (pregrasp_pose x y)).1 0.01 0.0,
        Call.execute Group.arm (backend 6).trajectory,
        Call.info "Close Gripper!",
        Call.setNamedTarget Group.gripper "gripper_close",
        Call.plan Group.gripper,
        Call.execute Group.gripper (backend 9).trajectory,
        Call.info "Retreat from object!",
        Call.computeCartesianPath Group.arm
          (retreat_waypoints (approach_waypoints (pregrasp_pose x y)).2).1 0.01 0.0,
        Call.execute Group.arm (backend 11).trajectory,
        Call.info "Rotating Arm",
        Call.getCurrentState Group.arm 10,
        Call.setJointValueTarget Group.arm (3.14 :: (backend 13).joints.tail),
        Call.plan Group.arm,
        Call.execute Group.arm (backend 15).trajectory,
        Call.info "Release Object!",
        Call.setNamedTarget Group.gripper "gripper_open",
        Call.plan Group.gripper,
        Call.execute Group.gripper (backend 18).trajectory ] ∧
    (motion_trace x y backend).bind stage_trace = some
      [ { stage := Stage.PREGRASP, group := Group.arm, motion := Motion.pose_target },
        { stage := Stage.OPEN_GRIPPER, group := Group.gripper,
          motion := Motion.named_target "gripper_open" },
        { stage := Stage.APPROACH, group := Group.arm, motion := Motion.cartesian_path },
        { stage := Stage.CLOSE_GRIPPER, group := Group.gripper,
          motion := Motion.named_target "gripper_close" },
        { stage := Stage.RETREAT, group := Group.arm, motion := Motion.cartesian_path },
        { stage := Stage.REPOSITION, group := Group.arm, motion := Motion.joint_target },
        { stage := Stage.RELEASE, group := Group.gripper,
          motion := Motion.named_target "gripper_open" } ] := by
  cases hj : (backend 13).joints with
  | nil => exact absurd hj h
  | cons j js =>
    have ht := motion_trace_eq x y backend j js hj
    refine ⟨by simpa using ht, ?_⟩
    rw [ht]
    rfl

/-- Witness of C5: against the backend that fails every plan and every execution and
returns fraction 0, the stage trace is still the seven stages in order. -/
theorem motion_sequence_stage_order_witness :
    (failing_backend 13).joints ≠ [] ∧
    (motion_trace 0.30 (-0.10) failing_backend).bind stage_trace = some
      [ { stage := Stage.PREGRASP, group := Group.arm, motion := Motion.pose_target },
        { stage := Stage.OPEN_GRIPPER, group := Group.gripper,
          motion := Motion.named_target "gripper_open" },
        { stage := Stage.APPROACH, group := Group.arm, motion := Motion.cartesian_path },
        { stage := Stage.CLOSE_GRIPPER, group := Group.gripper,
          motion := Motion.named_target "gripper_close" },
        { stage := Stage.RETREAT, group := Group.arm, motion := Motion.cartesian_path },
        { stage := Stage.REPOSITION, group := Group.arm, motion := Motion.joint_target },
        { stage := Stage.RELEASE, group := Group.gripper,
          motion := Motion.named_target "gripper_open" } ] :=
  ⟨by simp [failing_backend],
   (motion_sequence_stage_order 0.30 (-0.10) failing_backend (by simp [failing_backend])).2⟩

end PickAndPlace
